import Mathlib

/-!
Verification of the bill-ingestion pipeline of the lumi-task-energy backend
(`BillsService` in `bills.service.ts`), shallowly embedded in Lean 4.

Numbers on bills are modelled as exact rationals (`ℚ`).  External
collaborators (the Prisma store, the LLM extraction gateway, the file system
and the md5 helper from `node:crypto`) are modelled as explicit parameters of
a run environment: each store or gateway call is given its outcome (success,
or the error it throws) up front, and the pipeline is a pure function of the
submitted file, the environment and the current store state.
-/

namespace LumiEnergy

/-- Processing status of an energy bill (`ProcessingStatus` in `bills.dto.ts`). -/
inductive ProcessingStatus where
  | PENDING
  | PROCESSING
  | COMPLETED
  | FAILED
deriving DecidableEq

/-- The kind of an error surfaced to the caller: `BadRequestException` is a
client error, `NotFoundException` is not-found, any other thrown error
(database failure, LLM failure) is a processing error. -/
inductive ErrKind where
  | client
  | notFound
  | processing
deriving DecidableEq

/-- A thrown error: its kind together with its `message`. -/
structure Err where
  kind : ErrKind
  msg : String
deriving DecidableEq

/-- A quantity/value pair as extracted from a bill (kWh and R$). -/
structure EnergyPair where
  quantity : ℚ
  value : ℚ
deriving DecidableEq

/-- The extraction gateway's response (`LlmExtractionResponseDto`):
required customer number, reference month and electric-energy pair, plus the
three optional extracted fields. -/
structure LlmExtractionResponse where
  customerNumber : String
  referenceMonth : String
  electricEnergy : EnergyPair
  sceeeEnergy : Option EnergyPair
  compensatedEnergy : Option EnergyPair
  publicLightingContrib : Option ℚ
deriving DecidableEq

/-- The uploaded file as the pipeline sees it (`Express.Multer.File`):
declared name, raw bytes, storage path, declared byte size, declared MIME
type.  The unused multer bookkeeping fields are omitted. -/
structure MulterFile where
  originalname : String
  buffer : List Nat
  path : String
  size : Nat
  mimetype : String
deriving DecidableEq

/-- JavaScript `x || d` on a number `x`: `x` unless `x` is falsy (zero). -/
def jsOr (x d : ℚ) : ℚ :=
  if x = 0 then d else x

/-- JavaScript `o?.f || d`: `d` when the object is absent, else `f o || d`.
Models the `extractedData.sceeeEnergy?.quantity || 0` idiom of the source. -/
def optJsOr (o : Option ℚ) (d : ℚ) : ℚ :=
  match o with
  | none => d
  | some x => jsOr x d

/-- The four derived metrics returned by `calculateDerivedValues`. -/
structure DerivedValues where
  totalEnergyConsumption : ℚ
  compensatedEnergy : ℚ
  totalValueWithoutGD : ℚ
  gdEconomy : ℚ
deriving DecidableEq

/-- `BillsService.calculateDerivedValues`, translated from the source:
each absent optional input enters the arithmetic through `|| 0`. -/
def calculateDerivedValues (e : LlmExtractionResponse) : DerivedValues :=
  { totalEnergyConsumption :=
      e.electricEnergy.quantity + optJsOr (e.sceeeEnergy.map fun p => p.quantity) 0
    compensatedEnergy := optJsOr (e.compensatedEnergy.map fun p => p.quantity) 0
    totalValueWithoutGD :=
      e.electricEnergy.value + optJsOr (e.sceeeEnergy.map fun p => p.value) 0 +
        optJsOr e.publicLightingContrib 0
    gdEconomy := optJsOr (e.compensatedEnergy.map fun p => p.value) 0 }

/-- The metric formulas exactly as the specification words them (§4.2), with
absent optional inputs defaulting to zero via `?? 0`. -/
def deriveMetricsSpec (e : LlmExtractionResponse) : DerivedValues :=
  { totalEnergyConsumption :=
      e.electricEnergy.quantity + ((e.sceeeEnergy.map fun p => p.quantity).getD 0)
    compensatedEnergy := ((e.compensatedEnergy.map fun p => p.quantity).getD 0)
    totalValueWithoutGD :=
      e.electricEnergy.value + ((e.sceeeEnergy.map fun p => p.value).getD 0) +
        (e.publicLightingContrib.getD 0)
    gdEconomy := ((e.compensatedEnergy.map fun p => p.value).getD 0) }

/-- A stored `EnergyBill` row.  Field names follow the Prisma model as used by
`bills.service.ts`; the record identifier is modelled as a natural number
assigned from a store counter.  The columns the creation step does not set
(the optional extracted fields, the two optional derived metrics and the
error message) are nullable and modelled as `Option`. -/
structure EnergyBill where
  id : Nat
  customerNumber : String
  referenceMonth : String
  electricEnergyQuantity : ℚ
  electricEnergyValue : ℚ
  sceeeQuantity : Option ℚ
  sceeeValue : Option ℚ
  compensatedEnergyQuantity : Option ℚ
  compensatedEnergyValue : Option ℚ
  publicLightingContrib : Option ℚ
  totalEnergyConsumption : ℚ
  compensatedEnergy : Option ℚ
  totalValueWithoutGD : ℚ
  gdEconomy : Option ℚ
  originalFileName : String
  filePath : String
  fileSize : Nat
  fileHash : String
  processingStatus : ProcessingStatus
  errorMessage : Option String
deriving DecidableEq

/-- A `ProcessingLog` row (the free-form structured metadata payload is not
modelled; no property depends on it). -/
structure ProcessingLog where
  billId : Nat
  operation : String
  status : String
  message : String
deriving DecidableEq

/-- The durable store: the bill table, the append-only log table and the
counter from which fresh record identifiers are assigned. -/
structure Store where
  bills : List EnergyBill
  logs : List ProcessingLog
  nextId : Nat
deriving DecidableEq

def emptyStore : Store :=
  { bills := [], logs := [], nextId := 0 }

/-- The environment of one `uploadAndProcessBill` run: the behaviour of every
external collaborator the run consults.  `md5Hex` is the content fingerprint
function (`createHash('md5')...digest('hex')` from `node:crypto`);
`maxFileSizeEnv` is `Number.parseInt(process.env.MAX_FILE_SIZE)` when that
parses (`none` when the variable is unset or not a number); each `...Err`
field is `some e` when the corresponding store write throws `e` and `none`
when it succeeds; `llmResult` is the outcome of the extraction call. -/
structure RunEnv where
  md5Hex : List Nat → String
  maxFileSizeEnv : Option Nat
  createErr : Option Err
  llmResult : Except Err LlmExtractionResponse
  updateCompletedErr : Option Err
  updateFailedErr : Option Err
  logUploadStartedErr : Option Err
  logCompletedErr : Option Err
  logFailedErr : Option Err

deriving instance DecidableEq for Except

/-- Outcome of one pipeline run: the value returned to the caller (the new
bill's identifier on success, the thrown error otherwise) and the store state
the run leaves behind.  The wall-clock `processingTime` of the response is
not modelled. -/
structure RunResult where
  outcome : Except Err Nat
  store : Store
deriving DecidableEq

/-- The effective maximum upload size:
`Number.parseInt(process.env.MAX_FILE_SIZE) || 10485760`.  An unset or
non-numeric variable parses to `NaN`, and `0` is falsy, so both fall back to
the 10 MiB default. -/
def maxSizeOf (env : Option Nat) : Nat :=
  match env with
  | none => 10485760
  | some 0 => 10485760
  | some n => n

/-- `BillsService.validateFile` on a present file: MIME type first, then the
size cap.  Returns the thrown error, or `none` when validation passes.  (The
file-presence check of the source is the `none` case of the `Option
MulterFile` argument of `uploadAndProcessBill`.) -/
def validateFile (env : Option Nat) (file : MulterFile) : Option Err :=
  if file.mimetype ≠ "application/pdf" then
    some { kind := ErrKind.client, msg := "Apenas arquivos PDF são aceitos" }
  else if file.size > maxSizeOf env then
    some { kind := ErrKind.client
           msg := "Arquivo muito grande. Tamanho máximo: " ++
             toString (maxSizeOf env / 1024 / 1024) ++ "MB" }
  else
    none

/-- `BillsService.createProcessingLog`: appends a log row; a failing log
write is caught inside the helper and only logged, so it never alters the
store or throws. -/
def createProcessingLog (logErr : Option Err) (st : Store) (billId : Nat)
    (operation status message : String) : Store :=
  match logErr with
  | some _ => st
  | none =>
      { st with logs := st.logs ++
          [{ billId := billId, operation := operation, status := status,
             message := message }] }

/-- The provisional record persisted by the record-creation step: sentinel
customer/month values, zeroed required numeric fields, unset nullable
fields, `PROCESSING` status, and the file metadata. -/
def initialBillData (file : MulterFile) (fileHash : String) (id : Nat) :
    EnergyBill :=
  { id := id
    customerNumber := "PROCESSING"
    referenceMonth := "PROCESSING"
    electricEnergyQuantity := 0
    electricEnergyValue := 0
    sceeeQuantity := none
    sceeeValue := none
    compensatedEnergyQuantity := none
    compensatedEnergyValue := none
    publicLightingContrib := none
    totalEnergyConsumption := 0
    compensatedEnergy := none
    totalValueWithoutGD := 0
    gdEconomy := none
    originalFileName := file.originalname
    filePath := file.path
    fileSize := file.size
    fileHash := fileHash
    processingStatus := ProcessingStatus.PROCESSING
    errorMessage := none }

/-- The patch of the final success update: all extracted fields (absent
optional ones through `|| 0`), the four derived metrics, `COMPLETED`. -/
def completedPatch (e : LlmExtractionResponse) (c : DerivedValues)
    (b : EnergyBill) : EnergyBill :=
  { b with
    customerNumber := e.customerNumber
    referenceMonth := e.referenceMonth
    electricEnergyQuantity := e.electricEnergy.quantity
    electricEnergyValue := e.electricEnergy.value
    sceeeQuantity := some (optJsOr (e.sceeeEnergy.map fun p => p.quantity) 0)
    sceeeValue := some (optJsOr (e.sceeeEnergy.map fun p => p.value) 0)
    compensatedEnergyQuantity :=
      some (optJsOr (e.compensatedEnergy.map fun p => p.quantity) 0)
    compensatedEnergyValue :=
      some (optJsOr (e.compensatedEnergy.map fun p => p.value) 0)
    publicLightingContrib := some (optJsOr e.publicLightingContrib 0)
    totalEnergyConsumption := c.totalEnergyConsumption
    compensatedEnergy := some c.compensatedEnergy
    totalValueWithoutGD := c.totalValueWithoutGD
    gdEconomy := some c.gdEconomy
    processingStatus := ProcessingStatus.COMPLETED }

/-- The patch of the failure update: `FAILED` plus the error's message. -/
def failedPatch (msg : String) (b : EnergyBill) : EnergyBill :=
  { b with
    processingStatus := ProcessingStatus.FAILED
    errorMessage := some msg }

/-- Prisma `energyBill.update({where: {id}, data})`: applies the patch to the
rows whose identifier matches. -/
def updateBillWith (f : EnergyBill → EnergyBill) (id : Nat)
    (bills : List EnergyBill) : List EnergyBill :=
  bills.map fun b => if b.id = id then f b else b

/-- The `catch (llmError)` block of `uploadAndProcessBill`: the FAILED-status
update is not guarded, so when it throws, its error escapes the catch block
and is what the caller receives; otherwise the record is marked FAILED with
the original error's message, the failure log entry is appended best-effort,
and the original error is rethrown. -/
def failPath (env : RunEnv) (st : Store) (billId : Nat) (llmError : Err) :
    RunResult :=
  match env.updateFailedErr with
  | some e2 => { outcome := Except.error e2, store := st }
  | none =>
      let bills1 := updateBillWith (failedPatch llmError.msg) billId st.bills
      let st1 : Store := { st with bills := bills1 }
      let st2 := createProcessingLog env.logFailedErr st1 billId
        "processing_failed" "error" ("Falha no processamento: " ++ llmError.msg)
      { outcome := Except.error llmError, store := st2 }

/-- The inner `try` of `uploadAndProcessBill`, entered after the provisional
record exists: extraction call, metric computation, final COMPLETED update
and success log; any throw is routed to `failPath`. -/
def processAfterCreate (env : RunEnv) (st : Store) (billId : Nat) : RunResult :=
  match env.llmResult with
  | Except.error llmError => failPath env st billId llmError
  | Except.ok extractedData =>
      let calculatedData := calculateDerivedValues extractedData
      match env.updateCompletedErr with
      | some e => failPath env st billId e
      | none =>
          let bills1 :=
            updateBillWith (completedPatch extractedData calculatedData) billId st.bills
          let st1 : Store := { st with bills := bills1 }
          let st2 := createProcessingLog env.logCompletedErr st1 billId
            "processing_completed" "success" "Fatura processada com sucesso"
          { outcome := Except.ok billId, store := st2 }

/-- `BillsService.uploadAndProcessBill`: validation, fingerprint and duplicate
check, provisional record creation, start log, then the guarded
extract/compute/finalize phase.  The outer `catch` of the source only logs
and rethrows, so it does not change the observable outcome. -/
def uploadAndProcessBill (env : RunEnv) (fileOpt : Option MulterFile)
    (st : Store) : RunResult :=
  match fileOpt with
  | none =>
      { outcome := Except.error
          { kind := ErrKind.client, msg := "Nenhum arquivo foi enviado" }
        store := st }
  | some file =>
      match validateFile env.maxFileSizeEnv file with
      | some e => { outcome := Except.error e, store := st }
      | none =>
          let fileHash := env.md5Hex file.buffer
          match st.bills.find? (fun b => b.fileHash == fileHash) with
          | some _ =>
              { outcome := Except.error
                  { kind := ErrKind.client
                    msg := "Esta fatura já foi processada anteriormente" }
                store := st }
          | none =>
              match env.createErr with
              | some e => { outcome := Except.error e, store := st }
              | none =>
                  let billId := st.nextId
                  let st1 : Store :=
                    { bills := st.bills ++ [initialBillData file fileHash billId]
                      logs := st.logs
                      nextId := st.nextId + 1 }
                  let st2 := createProcessingLog env.logUploadStartedErr st1 billId
                    "upload_started" "success"
                    "Arquivo recebido e salvo, iniciando processamento LLM"
                  processAfterCreate env st2 billId

/-- The environment of one `reprocessBill` run: the outcome of the
`fs.readFile` of the saved file, plus the environment of the ingest run it
triggers. -/
structure ReprocEnv where
  fileRead : Except String (List Nat)
  run : RunEnv

/-- `BillsService.getFileBuffer`: reads the saved file; a read failure is
caught and re-thrown as a `BadRequestException` (client error kind). -/
def getFileBuffer (fileRead : Except String (List Nat)) :
    Except Err (List Nat) :=
  match fileRead with
  | Except.ok buf => Except.ok buf
  | Except.error _ =>
      Except.error
        { kind := ErrKind.client
          msg := "Não foi possível ler o arquivo salvo para reprocessamento." }

/-- `BillsService.reprocessBill`: looks the bill up, requires FAILED status,
re-reads the saved file, rebuilds a file object with the bill's original
metadata (MIME type hardcoded to PDF) and re-invokes `uploadAndProcessBill`. -/
def reprocessBill (env : ReprocEnv) (id : Nat) (st : Store) : RunResult :=
  match st.bills.find? (fun b => b.id == id) with
  | none =>
      { outcome := Except.error
          { kind := ErrKind.notFound, msg := "Fatura não encontrada" }
        store := st }
  | some bill =>
      if bill.processingStatus ≠ ProcessingStatus.FAILED then
        { outcome := Except.error
            { kind := ErrKind.client
              msg := "Só é possível reprocessar faturas com status FAILED" }
          store := st }
      else
        match getFileBuffer env.fileRead with
        | Except.error e => { outcome := Except.error e, store := st }
        | Except.ok buf =>
            let fakeFile : MulterFile :=
              { originalname := bill.originalFileName
                buffer := buf
                path := bill.filePath
                size := bill.fileSize
                mimetype := "application/pdf" }
            uploadAndProcessBill env.run (some fakeFile) st

/-- The worked example from the specification (§8). -/
def sampleExtraction : LlmExtractionResponse :=
  { customerNumber := "7202210726"
    referenceMonth := "SET/2024"
    electricEnergy := { quantity := 50, value := 45.67 }
    sceeeEnergy := some { quantity := 476, value := 392.50 }
    compensatedEnergy := some { quantity := 526, value := 438.17 }
    publicLightingContrib := some 23.45 }

/-- One invocation of the pipeline's public surface: an ingest (upload) run
or a reprocess run, together with the behaviour of the externals during it. -/
inductive PipelineOp where
  | ingest (env : RunEnv) (file : Option MulterFile)
  | reprocess (env : ReprocEnv) (id : Nat)

/-- The store state a pipeline invocation leaves behind. -/
def applyOp (st : Store) (op : PipelineOp) : Store :=
  match op with
  | PipelineOp.ingest env file => (uploadAndProcessBill env file st).store
  | PipelineOp.reprocess env id => (reprocessBill env id st).store

/-- Run a sequence of pipeline invocations from the empty store. -/
def runOps (ops : List PipelineOp) : Store :=
  ops.foldl applyOp emptyStore

/-- A store state is reachable when some sequence of pipeline invocations
produces it from the empty store. -/
def Reachable (st : Store) : Prop :=
  ∃ ops, runOps ops = st

/-- The extracted and derived fields of a record are still the provisional
zero/sentinel values from record creation: nothing from an extraction has
been written into it. -/
def extractedAbsent (b : EnergyBill) : Prop :=
  b.customerNumber = "PROCESSING" ∧ b.referenceMonth = "PROCESSING" ∧
  b.electricEnergyQuantity = 0 ∧ b.electricEnergyValue = 0 ∧
  b.sceeeQuantity = none ∧ b.sceeeValue = none ∧
  b.compensatedEnergyQuantity = none ∧ b.compensatedEnergyValue = none ∧
  b.publicLightingContrib = none ∧
  b.totalEnergyConsumption = 0 ∧ b.compensatedEnergy = none ∧
  b.totalValueWithoutGD = 0 ∧ b.gdEconomy = none

instance (b : EnergyBill) : Decidable (extractedAbsent b) := by
  unfold extractedAbsent
  infer_instance

/-- All extracted and derived fields of the record are present and mutually
consistent with the §4.2 metric formulas. -/
def consistentDerived (b : EnergyBill) : Prop :=
  b.sceeeQuantity ≠ none ∧ b.sceeeValue ≠ none ∧
  b.compensatedEnergyQuantity ≠ none ∧ b.compensatedEnergyValue ≠ none ∧
  b.publicLightingContrib ≠ none ∧
  b.compensatedEnergy ≠ none ∧ b.gdEconomy ≠ none ∧
  b.totalEnergyConsumption = b.electricEnergyQuantity + b.sceeeQuantity.getD 0 ∧
  b.compensatedEnergy = b.compensatedEnergyQuantity ∧
  b.totalValueWithoutGD =
    b.electricEnergyValue + b.sceeeValue.getD 0 + b.publicLightingContrib.getD 0 ∧
  b.gdEconomy = b.compensatedEnergyValue

instance (b : EnergyBill) : Decidable (consistentDerived b) := by
  unfold consistentDerived
  infer_instance

/-- The record-level invariant of the data model: a COMPLETED record carries
a full, mutually consistent set of extracted/derived fields; any other
record still carries the provisional zero/sentinel values. -/
def billInvariant (b : EnergyBill) : Prop :=
  (b.processingStatus = ProcessingStatus.COMPLETED ∧ consistentDerived b) ∨
  (b.processingStatus ≠ ProcessingStatus.COMPLETED ∧ extractedAbsent b)

instance (b : EnergyBill) : Decidable (billInvariant b) := by
  unfold billInvariant
  infer_instance

/-- The store-level invariant: identifiers are below the allocation counter
(so freshly allocated identifiers never collide) and every row satisfies
`billInvariant`. -/
def StoreInv (st : Store) : Prop :=
  (∀ b ∈ st.bills, b.id < st.nextId) ∧ (∀ b ∈ st.bills, billInvariant b)

/-- An extraction response with every absent optional field replaced by an
explicit zero quantity/value.  Used to state that an omitted optional field
is stored exactly like one extracted with value zero. -/
def zeroFill (e : LlmExtractionResponse) : LlmExtractionResponse :=
  { e with
    sceeeEnergy := some (e.sceeeEnergy.getD { quantity := 0, value := 0 })
    compensatedEnergy := some (e.compensatedEnergy.getD { quantity := 0, value := 0 })
    publicLightingContrib := some (e.publicLightingContrib.getD 0) }

/-! Concrete inputs used by the witness and counterexample theorems. -/

/-- A concrete valid PDF upload. -/
def cFile : MulterFile :=
  { originalname := "fatura.pdf", buffer := [1, 2], path := "/uploads/fatura.pdf",
    size := 1024, mimetype := "application/pdf" }

/-- A run environment in which every external call succeeds. -/
def cOkEnv : RunEnv :=
  { md5Hex := fun _ => "h1", maxFileSizeEnv := none, createErr := none,
    llmResult := Except.ok sampleExtraction, updateCompletedErr := none,
    updateFailedErr := none, logUploadStartedErr := none,
    logCompletedErr := none, logFailedErr := none }

/-- A run environment in which the extraction call throws. -/
def cFailEnv : RunEnv :=
  { cOkEnv with
    llmResult := Except.error { kind := ErrKind.processing, msg := "LLM down" } }

/-- A run environment in which the extraction call throws and the
FAILED-status write then also throws. -/
def cMaskEnv : RunEnv :=
  { cFailEnv with
    updateFailedErr := some { kind := ErrKind.processing, msg := "db down" } }

/-- A run environment in which the extraction call throws and the failure
log write then also throws (the FAILED-status write succeeds). -/
def cLogFailEnv : RunEnv :=
  { cFailEnv with
    logFailedErr := some { kind := ErrKind.processing, msg := "log db down" } }

/-- The FAILED record a failing run leaves behind for `cFile`. -/
def cFailedBill : EnergyBill :=
  failedPatch "LLM down" (initialBillData cFile "h1" 0)

/-- A store holding exactly the FAILED record. -/
def cFailedStore : Store :=
  { bills := [cFailedBill]
    logs := []
    nextId := 1 }

/-- A reprocess environment whose file read returns the original bytes. -/
def cReprocEnv : ReprocEnv :=
  { fileRead := Except.ok [1, 2], run := cOkEnv }

/-- A reprocess environment whose file read throws. -/
def cBadReadEnv : ReprocEnv :=
  { fileRead := Except.error "ENOENT", run := cOkEnv }

/-- The worked §8 example with every optional field absent. -/
def sampleExtractionNoOpt : LlmExtractionResponse :=
  { customerNumber := "7202210726"
    referenceMonth := "SET/2024"
    electricEnergy := { quantity := 50, value := 45.67 }
    sceeeEnergy := none
    compensatedEnergy := none
    publicLightingContrib := none }

/-- A run environment whose extraction reports no optional fields. -/
def cNoOptEnv : RunEnv :=
  { cOkEnv with llmResult := Except.ok sampleExtractionNoOpt }

/-- The store left by one successful concrete ingest run. -/
def cRunStore : Store :=
  runOps [PipelineOp.ingest cOkEnv (some cFile)]

/-! ## General lemmas about the embedding -/

theorem optJsOr_zero (o : Option ℚ) : optJsOr o 0 = o.getD 0 := by
  cases o with
  | none => rfl
  | some x =>
    simp only [optJsOr, jsOr, Option.getD_some]
    split <;> simp_all

theorem createProcessingLog_bills (logErr : Option Err) (st : Store)
    (billId : Nat) (op s m : String) :
    (createProcessingLog logErr st billId op s m).bills = st.bills := by
  cases logErr <;> rfl

theorem createProcessingLog_nextId (logErr : Option Err) (st : Store)
    (billId : Nat) (op s m : String) :
    (createProcessingLog logErr st billId op s m).nextId = st.nextId := by
  cases logErr <;> rfl

theorem initialBillData_id (f : MulterFile) (h : String) (i : Nat) :
    (initialBillData f h i).id = i := rfl

theorem initialBillData_status (f : MulterFile) (h : String) (i : Nat) :
    (initialBillData f h i).processingStatus = ProcessingStatus.PROCESSING := rfl

theorem failedPatch_id (m : String) (b : EnergyBill) :
    (failedPatch m b).id = b.id := rfl

theorem failedPatch_status (m : String) (b : EnergyBill) :
    (failedPatch m b).processingStatus = ProcessingStatus.FAILED := rfl

theorem failedPatch_errorMessage (m : String) (b : EnergyBill) :
    (failedPatch m b).errorMessage = some m := rfl

theorem completedPatch_id (e : LlmExtractionResponse) (c : DerivedValues)
    (b : EnergyBill) : (completedPatch e c b).id = b.id := rfl

theorem completedPatch_status (e : LlmExtractionResponse)
    (c : DerivedValues) (b : EnergyBill) :
    (completedPatch e c b).processingStatus = ProcessingStatus.COMPLETED := rfl

theorem validateFile_client (env : Option Nat) (f : MulterFile) (e : Err)
    (h : validateFile env f = some e) : e.kind = ErrKind.client := by
  unfold validateFile at h
  split at h
  · cases h
    rfl
  · split at h
    · cases h
      rfl
    · cases h

theorem mem_updateBillWith {f : EnergyBill → EnergyBill} {n : Nat}
    {l : List EnergyBill} {b : EnergyBill} :
    b ∈ updateBillWith f n l ↔ ∃ a ∈ l, (if a.id = n then f a else a) = b := by
  simp [updateBillWith, List.mem_map]

theorem updateBillWith_not_mem (f : EnergyBill → EnergyBill) (n : Nat)
    (l : List EnergyBill) (b : EnergyBill) (hb : b ∈ l) (hne : b.id ≠ n) :
    b ∈ updateBillWith f n l := by
  rw [mem_updateBillWith]
  exact ⟨b, hb, by simp [hne]⟩

theorem filter_id_updateBillWith (f : EnergyBill → EnergyBill) (n : Nat)
    (l : List EnergyBill) (b0 : EnergyBill) (hl : ∀ a ∈ l, a.id ≠ n)
    (hb0 : b0.id = n) (hf : (f b0).id = n) :
    (updateBillWith f n (l ++ [b0])).filter (fun b => b.id == n) = [f b0] := by
  induction l with
  | nil =>
      simp only [List.nil_append, updateBillWith, List.map_cons, List.map_nil,
        if_pos hb0, List.filter]
      simp [hf]
  | cons a l ih =>
      have ha : ¬ a.id = n := hl a (List.mem_cons_self a l)
      have ih2 := ih fun x hx => hl x (List.mem_cons_of_mem a hx)
      simp only [List.cons_append, updateBillWith, List.map_cons, if_neg ha,
        List.filter_cons] at *
      simp only [beq_iff_eq, ha, ite_false]
      exact ih2

/-- After successful validation, a clean duplicate check and a successful
create, the run is the post-creation phase on the store holding the new
PROCESSING record and (best-effort) the start log. -/
theorem upload_created_eq (env : RunEnv) (file : MulterFile) (st : Store)
    (h1 : validateFile env.maxFileSizeEnv file = none)
    (h2 : st.bills.find? (fun b => b.fileHash == env.md5Hex file.buffer) = none)
    (h3 : env.createErr = none) :
    uploadAndProcessBill env (some file) st =
      processAfterCreate env
        (createProcessingLog env.logUploadStartedErr
          { bills := st.bills ++ [initialBillData file (env.md5Hex file.buffer) st.nextId]
            logs := st.logs
            nextId := st.nextId + 1 }
          st.nextId "upload_started" "success"
          "Arquivo recebido e salvo, iniciando processamento LLM")
        st.nextId := by
  simp only [uploadAndProcessBill, h1, h2, h3]

theorem failPath_nextId (env : RunEnv) (st : Store) (billId : Nat) (e : Err) :
    (failPath env st billId e).store.nextId = st.nextId := by
  unfold failPath
  cases env.updateFailedErr <;> simp [createProcessingLog_nextId]

theorem failPath_bills (env : RunEnv) (st : Store) (billId : Nat) (e : Err) :
    (failPath env st billId e).store.bills = st.bills ∨
    ∃ m, (failPath env st billId e).store.bills =
      updateBillWith (failedPatch m) billId st.bills := by
  unfold failPath
  cases env.updateFailedErr with
  | none => exact Or.inr ⟨e.msg, by simp [createProcessingLog_bills]⟩
  | some e2 => exact Or.inl rfl

theorem processAfterCreate_nextId (env : RunEnv) (st : Store) (billId : Nat) :
    (processAfterCreate env st billId).store.nextId = st.nextId := by
  unfold processAfterCreate
  cases env.llmResult with
  | error e => exact failPath_nextId env st billId e
  | ok ed =>
    cases h : env.updateCompletedErr with
    | some e => exact failPath_nextId env st billId e
    | none => simp [createProcessingLog_nextId]

theorem processAfterCreate_bills (env : RunEnv) (st : Store) (billId : Nat) :
    (processAfterCreate env st billId).store.bills = st.bills ∨
    (∃ m, (processAfterCreate env st billId).store.bills =
      updateBillWith (failedPatch m) billId st.bills) ∨
    (∃ e, (processAfterCreate env st billId).store.bills =
      updateBillWith (completedPatch e (calculateDerivedValues e)) billId
        st.bills) := by
  unfold processAfterCreate
  cases env.llmResult with
  | error e =>
    rcases failPath_bills env st billId e with h | ⟨m, h⟩
    · exact Or.inl h
    · exact Or.inr (Or.inl ⟨m, h⟩)
  | ok ed =>
    cases h : env.updateCompletedErr with
    | some e =>
      rcases failPath_bills env st billId e with h2 | ⟨m, h2⟩
      · exact Or.inl h2
      · exact Or.inr (Or.inl ⟨m, h2⟩)
    | none =>
      exact Or.inr (Or.inr ⟨ed, by simp [createProcessingLog_bills]⟩)

/-- The store a run leaves behind is either untouched, or extends the input
store with the new provisional record, possibly patched once to FAILED or to
COMPLETED.  In every case the identifier counter moves accordingly. -/
theorem upload_store_shape (env : RunEnv) (fileOpt : Option MulterFile)
    (st : Store) :
    (uploadAndProcessBill env fileOpt st).store = st ∨
    ∃ f, fileOpt = some f ∧
      (uploadAndProcessBill env fileOpt st).store.nextId = st.nextId + 1 ∧
      ((uploadAndProcessBill env fileOpt st).store.bills =
          st.bills ++ [initialBillData f (env.md5Hex f.buffer) st.nextId] ∨
        (∃ m, (uploadAndProcessBill env fileOpt st).store.bills =
          updateBillWith (failedPatch m) st.nextId
            (st.bills ++ [initialBillData f (env.md5Hex f.buffer) st.nextId])) ∨
        (∃ e, (uploadAndProcessBill env fileOpt st).store.bills =
          updateBillWith (completedPatch e (calculateDerivedValues e)) st.nextId
            (st.bills ++ [initialBillData f (env.md5Hex f.buffer) st.nextId]))) := by
  cases fileOpt with
  | none => left; rfl
  | some file =>
    cases h1 : validateFile env.maxFileSizeEnv file with
    | some e => left; simp [uploadAndProcessBill, h1]
    | none =>
      cases h2 : st.bills.find? (fun b => b.fileHash == env.md5Hex file.buffer) with
      | some b => left; simp [uploadAndProcessBill, h1, h2]
      | none =>
        cases h3 : env.createErr with
        | some e => left; simp [uploadAndProcessBill, h1, h2, h3]
        | none =>
          right
          refine ⟨file, rfl, ?_, ?_⟩
          · rw [upload_created_eq env file st h1 h2 h3,
              processAfterCreate_nextId, createProcessingLog_nextId]
          · rw [upload_created_eq env file st h1 h2 h3]
            have hb := processAfterCreate_bills env
              (createProcessingLog env.logUploadStartedErr
                { bills := st.bills ++
                    [initialBillData file (env.md5Hex file.buffer) st.nextId]
                  logs := st.logs
                  nextId := st.nextId + 1 }
                st.nextId "upload_started" "success"
                "Arquivo recebido e salvo, iniciando processamento LLM")
              st.nextId
            rw [createProcessingLog_bills] at hb
            exact hb

/-- When the extraction call throws `E` (or the extraction succeeds and the
final COMPLETED update throws `E`), the post-creation phase is exactly the
catch block on `E`. -/
theorem processAfterCreate_error (env : RunEnv) (st : Store) (billId : Nat)
    (E : Err)
    (h : env.llmResult = Except.error E ∨
      ∃ ed, env.llmResult = Except.ok ed ∧ env.updateCompletedErr = some E) :
    processAfterCreate env st billId = failPath env st billId E := by
  rcases h with h | ⟨ed, hok, hupd⟩
  · simp only [processAfterCreate, h]
  · simp only [processAfterCreate, hok, hupd]

/-- When both failure-path store writes succeed, the catch block marks the
record FAILED with the original error's message, appends the failure log
entry and rethrows the original error. -/
theorem failPath_full (env : RunEnv) (st : Store) (billId : Nat) (E : Err)
    (h5 : env.updateFailedErr = none) (h6 : env.logFailedErr = none) :
    failPath env st billId E =
      { outcome := Except.error E
        store :=
          { bills := updateBillWith (failedPatch E.msg) billId st.bills
            logs := st.logs ++
              [{ billId := billId, operation := "processing_failed",
                 status := "error",
                 message := "Falha no processamento: " ++ E.msg }]
            nextId := st.nextId } } := by
  simp only [failPath, h5, createProcessingLog, h6]

/-- C2: ingesting a document whose fingerprint is already present in the
store (whatever the status of the record holding it) fails with a
client-error kind, leaves the bill table, the log table and the identifier
counter untouched (no record created, no log entry written). -/
theorem ingest_duplicate_rejected (env : RunEnv) (file : MulterFile) (st : Store)
    (hdup : ∃ b ∈ st.bills, b.fileHash = env.md5Hex file.buffer) :
    ∃ m, uploadAndProcessBill env (some file) st =
      { outcome := Except.error { kind := ErrKind.client, msg := m }
        store := st } := by
  cases h1 : validateFile env.maxFileSizeEnv file with
  | some e =>
    refine ⟨e.msg, ?_⟩
    have hk := validateFile_client env.maxFileSizeEnv file e h1
    simp only [uploadAndProcessBill, h1]
    have he : e = { kind := ErrKind.client, msg := e.msg } := by
      cases e
      simp_all
    rw [← he]
  | none =>
    cases h2 : st.bills.find? (fun b => b.fileHash == env.md5Hex file.buffer) with
    | none =>
      exfalso
      obtain ⟨b, hb, hh⟩ := hdup
      have := List.find?_eq_none.mp h2 b hb
      simp [hh] at this
    | some b =>
      refine ⟨"Esta fatura já foi processada anteriormente", ?_⟩
      simp [uploadAndProcessBill, h1, h2]

/-- C2 witness: a store already holding a record with the submitted file's
fingerprint rejects the submission and is left unchanged. -/
theorem ingest_duplicate_rejected_witness :
    (∃ b ∈ cFailedStore.bills, b.fileHash = cOkEnv.md5Hex cFile.buffer) ∧
    ∃ m, uploadAndProcessBill cOkEnv (some cFile) cFailedStore =
      { outcome := Except.error { kind := ErrKind.client, msg := m }
        store := cFailedStore } :=
  ⟨⟨cFailedBill, by decide, by decide⟩,
    ingest_duplicate_rejected cOkEnv cFile cFailedStore
      ⟨cFailedBill, by decide, by decide⟩⟩

/-- C7: validation runs before anything else, in the order file presence,
MIME type, size cap, failing fast with a client error and an untouched store
on the first violation; the default size cap is 10485760 bytes (10 MiB). -/
theorem ingest_validation_order (env : RunEnv) (st : Store) :
    (uploadAndProcessBill env none st =
      { outcome := Except.error
          { kind := ErrKind.client, msg := "Nenhum arquivo foi enviado" }
        store := st }) ∧
    (∀ f : MulterFile, f.mimetype ≠ "application/pdf" →
      uploadAndProcessBill env (some f) st =
        { outcome := Except.error
            { kind := ErrKind.client, msg := "Apenas arquivos PDF são aceitos" }
          store := st }) ∧
    (∀ f : MulterFile, f.mimetype = "application/pdf" →
      f.size > maxSizeOf env.maxFileSizeEnv →
      uploadAndProcessBill env (some f) st =
        { outcome := Except.error
            { kind := ErrKind.client
              msg := "Arquivo muito grande. Tamanho máximo: " ++
                toString (maxSizeOf env.maxFileSizeEnv / 1024 / 1024) ++ "MB" }
          store := st }) ∧
    maxSizeOf none = 10485760 := by
  refine ⟨rfl, ?_, ?_, rfl⟩
  · intro f hf
    simp [uploadAndProcessBill, validateFile, hf]
  · intro f hf hsize
    simp [uploadAndProcessBill, validateFile, hf, hsize]

/-- C7 witness: a missing file, a JPEG and an oversized PDF are each
rejected fast with the corresponding client error. -/
theorem ingest_validation_order_witness :
    uploadAndProcessBill cOkEnv none emptyStore =
      { outcome := Except.error
          { kind := ErrKind.client, msg := "Nenhum arquivo foi enviado" }
        store := emptyStore } ∧
    ({ cFile with mimetype := "image/jpeg" } : MulterFile).mimetype ≠
        "application/pdf" ∧
    uploadAndProcessBill cOkEnv (some { cFile with mimetype := "image/jpeg" })
        emptyStore =
      { outcome := Except.error
          { kind := ErrKind.client, msg := "Apenas arquivos PDF são aceitos" }
        store := emptyStore } ∧
    ({ cFile with size := 20971520 } : MulterFile).size >
        maxSizeOf cOkEnv.maxFileSizeEnv ∧
    uploadAndProcessBill cOkEnv (some { cFile with size := 20971520 })
        emptyStore =
      { outcome := Except.error
          { kind := ErrKind.client
            msg := "Arquivo muito grande. Tamanho máximo: " ++
              toString (maxSizeOf cOkEnv.maxFileSizeEnv / 1024 / 1024) ++ "MB" }
        store := emptyStore } :=
  ⟨(ingest_validation_order cOkEnv emptyStore).1,
    by decide,
    (ingest_validation_order cOkEnv emptyStore).2.1
      { cFile with mimetype := "image/jpeg" } (by decide),
    by decide,
    (ingest_validation_order cOkEnv emptyStore).2.2.1
      { cFile with size := 20971520 } (by decide) (by decide)⟩

/-- C1: when the record was created and the extraction call (or the final
update after it) throws `E`, and the failure-path store writes succeed, the
run ends with exactly one record for the submission, in FAILED state with
`errorMessage` equal to `E`'s message, a "processing_failed" log entry is
appended, and the original error `E` itself is rethrown to the caller. -/
theorem ingest_extraction_failure (env : RunEnv) (file : MulterFile)
    (st : Store) (E : Err)
    (hfresh : ∀ b ∈ st.bills, b.id ≠ st.nextId)
    (h1 : validateFile env.maxFileSizeEnv file = none)
    (h2 : st.bills.find? (fun b => b.fileHash == env.md5Hex file.buffer) = none)
    (h3 : env.createErr = none)
    (h4 : env.llmResult = Except.error E ∨
      ∃ ed, env.llmResult = Except.ok ed ∧ env.updateCompletedErr = some E)
    (h5 : env.updateFailedErr = none)
    (h6 : env.logFailedErr = none) :
    (uploadAndProcessBill env (some file) st).outcome = Except.error E ∧
    (uploadAndProcessBill env (some file) st).store.bills.filter
        (fun b => b.id == st.nextId) =
      [failedPatch E.msg (initialBillData file (env.md5Hex file.buffer) st.nextId)] ∧
    (failedPatch E.msg
      (initialBillData file (env.md5Hex file.buffer) st.nextId)).processingStatus =
      ProcessingStatus.FAILED ∧
    (failedPatch E.msg
      (initialBillData file (env.md5Hex file.buffer) st.nextId)).errorMessage =
      some E.msg ∧
    ({ billId := st.nextId, operation := "processing_failed", status := "error",
       message := "Falha no processamento: " ++ E.msg } : ProcessingLog) ∈
      (uploadAndProcessBill env (some file) st).store.logs := by
  rw [upload_created_eq env file st h1 h2 h3,
    processAfterCreate_error env _ st.nextId E h4,
    failPath_full env _ st.nextId E h5 h6]
  refine ⟨rfl, ?_, rfl, rfl, ?_⟩
  · rw [createProcessingLog_bills]
    exact filter_id_updateBillWith (failedPatch E.msg) st.nextId st.bills
      (initialBillData file (env.md5Hex file.buffer) st.nextId) hfresh rfl rfl
  · simp

/-- C1 witness: a concrete run in which the extraction call throws ends
rejected with the original error and exactly one FAILED record. -/
theorem ingest_extraction_failure_witness :
    (uploadAndProcessBill cFailEnv (some cFile) emptyStore).outcome =
      Except.error { kind := ErrKind.processing, msg := "LLM down" } ∧
    (uploadAndProcessBill cFailEnv (some cFile) emptyStore).store.bills.filter
        (fun b => b.id == emptyStore.nextId) =
      [failedPatch "LLM down"
        (initialBillData cFile (cFailEnv.md5Hex cFile.buffer) emptyStore.nextId)] ∧
    ({ billId := emptyStore.nextId, operation := "processing_failed",
       status := "error", message := "Falha no processamento: " ++ "LLM down" } :
        ProcessingLog) ∈
      (uploadAndProcessBill cFailEnv (some cFile) emptyStore).store.logs := by
  have h := ingest_extraction_failure cFailEnv cFile emptyStore
    { kind := ErrKind.processing, msg := "LLM down" }
    (by decide) (by decide) rfl rfl (Or.inl rfl) rfl rfl
  exact ⟨h.1, h.2.1, h.2.2.2.2⟩

/-- C5 (amended): a failing write of the failure log entry never masks the
original post-creation error `E` — the caller still receives `E`; but a
failing write of the FAILED status does mask it — its own error propagates
to the caller instead of `E`. -/
theorem ingest_secondary_failure (env : RunEnv) (file : MulterFile)
    (st : Store) (E : Err)
    (h1 : validateFile env.maxFileSizeEnv file = none)
    (h2 : st.bills.find? (fun b => b.fileHash == env.md5Hex file.buffer) = none)
    (h3 : env.createErr = none)
    (h4 : env.llmResult = Except.error E ∨
      ∃ ed, env.llmResult = Except.ok ed ∧ env.updateCompletedErr = some E) :
    (env.updateFailedErr = none →
      (uploadAndProcessBill env (some file) st).outcome = Except.error E) ∧
    (∀ e2, env.updateFailedErr = some e2 →
      (uploadAndProcessBill env (some file) st).outcome = Except.error e2) := by
  rw [upload_created_eq env file st h1 h2 h3,
    processAfterCreate_error env _ st.nextId E h4]
  constructor
  · intro h5
    simp only [failPath, h5]
  · intro e2 h5
    simp only [failPath, h5]

/-- C5 counterexample: in a concrete run where the extraction throws
"LLM down" and the FAILED-status write then throws "db down", the caller
receives the secondary error, not the original one — refuting the claim
that the caller always still receives the original error. -/
theorem ingest_secondary_failure_counterexample :
    (uploadAndProcessBill cMaskEnv (some cFile) emptyStore).outcome =
      Except.error { kind := ErrKind.processing, msg := "db down" } ∧
    (uploadAndProcessBill cMaskEnv (some cFile) emptyStore).outcome ≠
      Except.error { kind := ErrKind.processing, msg := "LLM down" } := by
  constructor
  · decide
  · decide

/-- C5 witness: with a failing log write the original error still surfaces;
with a failing FAILED-status write the secondary error surfaces. -/
theorem ingest_secondary_failure_witness :
    (uploadAndProcessBill cLogFailEnv (some cFile) emptyStore).outcome =
      Except.error { kind := ErrKind.processing, msg := "LLM down" } ∧
    (uploadAndProcessBill cMaskEnv (some cFile) emptyStore).outcome =
      Except.error { kind := ErrKind.processing, msg := "db down" } :=
  ⟨(ingest_secondary_failure cLogFailEnv cFile emptyStore
      { kind := ErrKind.processing, msg := "LLM down" }
      (by decide) rfl rfl (Or.inl rfl)).1 rfl,
    (ingest_secondary_failure cMaskEnv cFile emptyStore
      { kind := ErrKind.processing, msg := "LLM down" }
      (by decide) rfl rfl (Or.inl rfl)).2
      { kind := ErrKind.processing, msg := "db down" } rfl⟩

/-- C9 (amended): reprocessing an eligible FAILED bill whose saved file
cannot be read fails with the fixed message about the unreadable saved file,
surfaced as a client-error kind (`BadRequestException`) — the same kind as
validation and duplicate errors — and leaves the store untouched. -/
theorem reprocess_unreadable_file (env : ReprocEnv) (id : Nat) (st : Store)
    (bill : EnergyBill)
    (h1 : st.bills.find? (fun b => b.id == id) = some bill)
    (h2 : bill.processingStatus = ProcessingStatus.FAILED)
    (h3 : ∃ s, env.fileRead = Except.error s) :
    reprocessBill env id st =
      { outcome := Except.error
          { kind := ErrKind.client
            msg := "Não foi possível ler o arquivo salvo para reprocessamento." }
        store := st } := by
  obtain ⟨s, h3⟩ := h3
  simp only [reprocessBill, h1, getFileBuffer, h3]
  rw [if_neg (by simp [h2])]

/-- C9 counterexample: on a concrete eligible FAILED bill with an unreadable
saved file, the surfaced error kind is the client kind, not the processing
kind the claim requires. -/
theorem reprocess_unreadable_not_processing_kind :
    (reprocessBill cBadReadEnv 0 cFailedStore).outcome =
      Except.error
        { kind := ErrKind.client
          msg := "Não foi possível ler o arquivo salvo para reprocessamento." } ∧
    ErrKind.client ≠ ErrKind.processing := by
  constructor
  · decide
  · decide

/-- C9 witness for the amended claim, at the same concrete inputs. -/
theorem reprocess_unreadable_file_witness :
    cFailedStore.bills.find? (fun b => b.id == 0) = some cFailedBill ∧
    cFailedBill.processingStatus = ProcessingStatus.FAILED ∧
    reprocessBill cBadReadEnv 0 cFailedStore =
      { outcome := Except.error
          { kind := ErrKind.client
            msg := "Não foi possível ler o arquivo salvo para reprocessamento." }
        store := cFailedStore } :=
  ⟨by decide, by decide,
    reprocess_unreadable_file cBadReadEnv 0 cFailedStore cFailedBill
      (by decide) (by decide) ⟨"ENOENT", rfl⟩⟩

/-- C6 (code bug): reprocessing a FAILED bill whose saved file still holds
the originally ingested bytes is always rejected by the re-run's duplicate
check — the original record's fingerprint is still in the store — so no new
record is created and the store is left exactly as it was, contradicting the
documented reprocessing feature. -/
theorem reprocess_rejected_as_duplicate (env : ReprocEnv) (id : Nat)
    (st : Store) (bill : EnergyBill) (buf : List Nat)
    (h1 : st.bills.find? (fun b => b.id == id) = some bill)
    (h2 : bill.processingStatus = ProcessingStatus.FAILED)
    (h3 : env.fileRead = Except.ok buf)
    (h4 : env.run.md5Hex buf = bill.fileHash)
    (h5 : bill.fileSize ≤ maxSizeOf env.run.maxFileSizeEnv) :
    reprocessBill env id st =
      { outcome := Except.error
          { kind := ErrKind.client
            msg := "Esta fatura já foi processada anteriormente" }
        store := st } := by
  have hmem : bill ∈ st.bills := List.mem_of_find?_eq_some h1
  simp only [reprocessBill, h1, getFileBuffer, h3]
  rw [if_neg (by simp [h2])]
  have hv : validateFile env.run.maxFileSizeEnv
      { originalname := bill.originalFileName, buffer := buf,
        path := bill.filePath, size := bill.fileSize,
        mimetype := "application/pdf" } = none := by
    unfold validateFile
    rw [if_neg (by simp),
      if_neg (by show ¬ bill.fileSize > maxSizeOf env.run.maxFileSizeEnv; omega)]
  cases hf : st.bills.find? (fun b => b.fileHash == env.run.md5Hex buf) with
  | none =>
    exfalso
    have := List.find?_eq_none.mp hf bill hmem
    simp [h4] at this
  | some b2 =>
    simp [uploadAndProcessBill, hv, hf]

/-- C6 witness: a concrete FAILED bill, its original bytes re-read from
disk, and the resulting rejection with the duplicate message. -/
theorem reprocess_rejected_as_duplicate_witness :
    cFailedStore.bills.find? (fun b => b.id == 0) = some cFailedBill ∧
    cFailedBill.processingStatus = ProcessingStatus.FAILED ∧
    cReprocEnv.run.md5Hex [1, 2] = cFailedBill.fileHash ∧
    reprocessBill cReprocEnv 0 cFailedStore =
      { outcome := Except.error
          { kind := ErrKind.client
            msg := "Esta fatura já foi processada anteriormente" }
        store := cFailedStore } :=
  ⟨by decide, by decide, by decide,
    reprocess_rejected_as_duplicate cReprocEnv 0 cFailedStore cFailedBill
      [1, 2] (by decide) (by decide) rfl (by decide) (by decide)⟩

/-- A pre-existing record whose identifier differs from the one a run would
allocate is carried into the run's final store unchanged. -/
theorem upload_preserves_other_bills (env : RunEnv) (fileOpt : Option MulterFile)
    (st : Store) (b : EnergyBill) (hb : b ∈ st.bills) (hne : b.id ≠ st.nextId) :
    b ∈ (uploadAndProcessBill env fileOpt st).store.bills := by
  rcases upload_store_shape env fileOpt st with h | ⟨f, hf, hnext, hbills⟩
  · rw [h]
    exact hb
  · rcases hbills with h1 | ⟨m, h1⟩ | ⟨e, h1⟩
    · rw [h1]
      exact List.mem_append_left _ hb
    · rw [h1]
      exact updateBillWith_not_mem _ _ _ b (List.mem_append_left _ hb) hne
    · rw [h1]
      exact updateBillWith_not_mem _ _ _ b (List.mem_append_left _ hb) hne

/-- A reprocess run likewise carries every pre-existing record with a
non-colliding identifier into its final store unchanged; in particular it
never mutates the FAILED record it was called on. -/
theorem reprocess_preserves_other_bills (renv : ReprocEnv) (id : Nat)
    (st : Store) (b : EnergyBill) (hb : b ∈ st.bills) (hne : b.id ≠ st.nextId) :
    b ∈ (reprocessBill renv id st).store.bills := by
  cases h1 : st.bills.find? (fun x => x.id == id) with
  | none =>
    simp only [reprocessBill, h1]
    exact hb
  | some bill =>
    simp only [reprocessBill, h1]
    by_cases h2 : bill.processingStatus ≠ ProcessingStatus.FAILED
    · rw [if_pos h2]
      exact hb
    · rw [if_neg h2]
      cases h3 : getFileBuffer renv.fileRead with
      | error e =>
        simp only [h3]
        exact hb
      | ok buf =>
        simp only [h3]
        exact upload_preserves_other_bills renv.run _ st b hb hne

/-- C4: every record the pipeline creates starts in PROCESSING state; the
record carrying the run's fresh identifier in the final store is the
provisional record mutated at most once — to COMPLETED or to FAILED; and
every pre-existing record (in particular every COMPLETED or FAILED one) is
carried unchanged through both ingest and reprocess runs, reprocessing never
mutating the terminal record it starts from. -/
theorem bill_lifecycle (env : RunEnv) (fileOpt : Option MulterFile) (st : Store)
    (hwf : ∀ b ∈ st.bills, b.id < st.nextId) :
    (∀ (f : MulterFile) (hsh : String) (i : Nat),
      (initialBillData f hsh i).processingStatus = ProcessingStatus.PROCESSING) ∧
    (∀ b ∈ (uploadAndProcessBill env fileOpt st).store.bills, b.id = st.nextId →
      ∃ f, fileOpt = some f ∧
        (b = initialBillData f (env.md5Hex f.buffer) st.nextId ∨
          (∃ m, b = failedPatch m
            (initialBillData f (env.md5Hex f.buffer) st.nextId)) ∨
          (∃ e, b = completedPatch e (calculateDerivedValues e)
            (initialBillData f (env.md5Hex f.buffer) st.nextId)))) ∧
    (∀ (m : String) (b0 : EnergyBill),
      (failedPatch m b0).processingStatus = ProcessingStatus.FAILED) ∧
    (∀ (e : LlmExtractionResponse) (c : DerivedValues) (b0 : EnergyBill),
      (completedPatch e c b0).processingStatus = ProcessingStatus.COMPLETED) ∧
    (∀ b ∈ st.bills, b ∈ (uploadAndProcessBill env fileOpt st).store.bills) ∧
    (∀ (renv : ReprocEnv) (id : Nat), ∀ b ∈ st.bills,
      b ∈ (reprocessBill renv id st).store.bills) := by
  refine ⟨fun f hsh i => rfl, ?_, fun m b0 => rfl, fun e c b0 => rfl, ?_, ?_⟩
  · intro b hb hid
    rcases upload_store_shape env fileOpt st with h | ⟨f, hf, hnext, hbills⟩
    · rw [h] at hb
      exact absurd hid (Nat.ne_of_lt (hwf b hb))
    · refine ⟨f, hf, ?_⟩
      rcases hbills with h1 | ⟨m, h1⟩ | ⟨e, h1⟩
      · rw [h1] at hb
        rcases List.mem_append.mp hb with hb2 | hb2
        · exact absurd hid (Nat.ne_of_lt (hwf b hb2))
        · exact Or.inl (List.mem_singleton.mp hb2)
      · rw [h1, mem_updateBillWith] at hb
        obtain ⟨a, ha, hab⟩ := hb
        rcases List.mem_append.mp ha with ha2 | ha2
        · have hane : ¬ a.id = st.nextId := Nat.ne_of_lt (hwf a ha2)
          rw [if_neg hane] at hab
          rw [← hab] at hid
          exact absurd hid hane
        · have he : a = initialBillData f (env.md5Hex f.buffer) st.nextId :=
            List.mem_singleton.mp ha2
          subst he
          rw [if_pos (initialBillData_id f (env.md5Hex f.buffer) st.nextId)] at hab
          exact Or.inr (Or.inl ⟨m, hab.symm⟩)
      · rw [h1, mem_updateBillWith] at hb
        obtain ⟨a, ha, hab⟩ := hb
        rcases List.mem_append.mp ha with ha2 | ha2
        · have hane : ¬ a.id = st.nextId := Nat.ne_of_lt (hwf a ha2)
          rw [if_neg hane] at hab
          rw [← hab] at hid
          exact absurd hid hane
        · have he : a = initialBillData f (env.md5Hex f.buffer) st.nextId :=
            List.mem_singleton.mp ha2
          subst he
          rw [if_pos (initialBillData_id f (env.md5Hex f.buffer) st.nextId)] at hab
          exact Or.inr (Or.inr ⟨e, hab.symm⟩)
  · intro b hb
    exact upload_preserves_other_bills env fileOpt st b hb (Nat.ne_of_lt (hwf b hb))
  · intro renv id b hb
    exact reprocess_preserves_other_bills renv id st b hb (Nat.ne_of_lt (hwf b hb))

/-- C4 witness: a concrete run over a store holding a terminal FAILED record
leaves that record untouched in the final store. -/
theorem bill_lifecycle_witness :
    (∀ b ∈ cFailedStore.bills, b.id < cFailedStore.nextId) ∧
    (∀ b ∈ cFailedStore.bills,
      b ∈ (uploadAndProcessBill cOkEnv (some cFile) cFailedStore).store.bills) ∧
    (∀ (renv : ReprocEnv) (id : Nat), ∀ b ∈ cFailedStore.bills,
      b ∈ (reprocessBill renv id cFailedStore).store.bills) :=
  ⟨by decide,
    (bill_lifecycle cOkEnv (some cFile) cFailedStore (by decide)).2.2.2.2.1,
    (bill_lifecycle cOkEnv (some cFile) cFailedStore (by decide)).2.2.2.2.2⟩

theorem billInvariant_initial (f : MulterFile) (hsh : String) (i : Nat) :
    billInvariant (initialBillData f hsh i) :=
  Or.inr ⟨fun hcon => ProcessingStatus.noConfusion hcon,
    ⟨rfl, rfl, rfl, rfl, rfl, rfl, rfl, rfl, rfl, rfl, rfl, rfl, rfl⟩⟩

theorem billInvariant_failedPatch (m : String) (b : EnergyBill)
    (h : extractedAbsent b) : billInvariant (failedPatch m b) :=
  Or.inr ⟨fun hcon => ProcessingStatus.noConfusion hcon, h⟩

theorem billInvariant_completedPatch (e : LlmExtractionResponse)
    (b : EnergyBill) :
    billInvariant (completedPatch e (calculateDerivedValues e) b) := by
  left
  refine ⟨rfl, ?_⟩
  unfold consistentDerived completedPatch calculateDerivedValues
  simp

theorem inv_updateBillWith_append (patch : EnergyBill → EnergyBill) (st : Store)
    (f : MulterFile) (hsh : String)
    (hwf : ∀ b ∈ st.bills, b.id < st.nextId)
    (hinv : ∀ b ∈ st.bills, billInvariant b)
    (hpi : billInvariant (patch (initialBillData f hsh st.nextId))) :
    ∀ b ∈ updateBillWith patch st.nextId
      (st.bills ++ [initialBillData f hsh st.nextId]), billInvariant b := by
  intro b hb
  rw [mem_updateBillWith] at hb
  obtain ⟨a, ha, hab⟩ := hb
  rcases List.mem_append.mp ha with ha2 | ha2
  · have hc : ¬ a.id = st.nextId := Nat.ne_of_lt (hwf a ha2)
    rw [if_neg hc] at hab
    rw [← hab]
    exact hinv a ha2
  · have he : a = initialBillData f hsh st.nextId := List.mem_singleton.mp ha2
    subst he
    rw [if_pos (initialBillData_id f hsh st.nextId)] at hab
    rw [← hab]
    exact hpi

theorem wf_updateBillWith_append (patch : EnergyBill → EnergyBill) (st : Store)
    (f : MulterFile) (hsh : String)
    (hpid : ∀ b, (patch b).id = b.id)
    (hwf : ∀ b ∈ st.bills, b.id < st.nextId) :
    ∀ b ∈ updateBillWith patch st.nextId
      (st.bills ++ [initialBillData f hsh st.nextId]), b.id < st.nextId + 1 := by
  intro b hb
  rw [mem_updateBillWith] at hb
  obtain ⟨a, ha, hab⟩ := hb
  have hid : b.id = a.id := by
    by_cases hc : a.id = st.nextId
    · rw [if_pos hc] at hab
      rw [← hab]
      exact hpid a
    · rw [if_neg hc] at hab
      rw [← hab]
  rcases List.mem_append.mp ha with ha2 | ha2
  · rw [hid]
    exact Nat.lt_succ_of_lt (hwf a ha2)
  · rw [hid, List.mem_singleton.mp ha2]
    exact Nat.lt_succ_self st.nextId

/-- One ingest run preserves the store invariant. -/
theorem storeInv_upload (env : RunEnv) (fileOpt : Option MulterFile)
    (st : Store) (h : StoreInv st) :
    StoreInv (uploadAndProcessBill env fileOpt st).store := by
  obtain ⟨hwf, hinv⟩ := h
  rcases upload_store_shape env fileOpt st with hst | ⟨f, hf, hnext, hbills⟩
  · rw [hst]
    exact ⟨hwf, hinv⟩
  · constructor
    · intro b hb
      rw [hnext]
      rcases hbills with h1 | ⟨m, h1⟩ | ⟨e, h1⟩
      · rw [h1] at hb
        rcases List.mem_append.mp hb with hb2 | hb2
        · exact Nat.lt_succ_of_lt (hwf b hb2)
        · rw [List.mem_singleton.mp hb2]
          exact Nat.lt_succ_self st.nextId
      · rw [h1] at hb
        exact wf_updateBillWith_append (failedPatch m) st f
          (env.md5Hex f.buffer) (fun b0 => rfl) hwf b hb
      · rw [h1] at hb
        exact wf_updateBillWith_append
          (completedPatch e (calculateDerivedValues e)) st f
          (env.md5Hex f.buffer) (fun b0 => rfl) hwf b hb
    · intro b hb
      rcases hbills with h1 | ⟨m, h1⟩ | ⟨e, h1⟩
      · rw [h1] at hb
        rcases List.mem_append.mp hb with hb2 | hb2
        · exact hinv b hb2
        · rw [List.mem_singleton.mp hb2]
          exact billInvariant_initial f (env.md5Hex f.buffer) st.nextId
      · rw [h1] at hb
        exact inv_updateBillWith_append (failedPatch m) st f
          (env.md5Hex f.buffer) hwf hinv
          (billInvariant_failedPatch m _
            ⟨rfl, rfl, rfl, rfl, rfl, rfl, rfl, rfl, rfl, rfl, rfl, rfl, rfl⟩)
          b hb
      · rw [h1] at hb
        exact inv_updateBillWith_append
          (completedPatch e (calculateDerivedValues e)) st f
          (env.md5Hex f.buffer) hwf hinv
          (billInvariant_completedPatch e _) b hb

/-- One reprocess run preserves the store invariant. -/
theorem storeInv_reprocess (renv : ReprocEnv) (id : Nat) (st : Store)
    (h : StoreInv st) : StoreInv (reprocessBill renv id st).store := by
  cases h1 : st.bills.find? (fun x => x.id == id) with
  | none =>
    simp only [reprocessBill, h1]
    exact h
  | some bill =>
    simp only [reprocessBill, h1]
    by_cases h2 : bill.processingStatus ≠ ProcessingStatus.FAILED
    · rw [if_pos h2]
      exact h
    · rw [if_neg h2]
      cases h3 : getFileBuffer renv.fileRead with
      | error e =>
        simp only [h3]
        exact h
      | ok buf =>
        simp only [h3]
        exact storeInv_upload renv.run _ st h

theorem storeInv_runOps (ops : List PipelineOp) (st0 : Store)
    (h : StoreInv st0) : StoreInv (ops.foldl applyOp st0) := by
  induction ops generalizing st0 with
  | nil => exact h
  | cons op ops ih =>
    rw [List.foldl_cons]
    apply ih
    cases op with
    | ingest env f => exact storeInv_upload env f st0 h
    | reprocess renv id => exact storeInv_reprocess renv id st0 h

/-- C8: in every reachable store state, each bill record either carries a
full set of extracted/derived fields mutually consistent with the §4.2
formulas (COMPLETED), or still carries the provisional zero/sentinel values
(any non-COMPLETED state, FAILED included — extraction results are never
written on the failure path); and the provisional record itself is persisted
with zeroed extracted/derived fields in PROCESSING state. -/
theorem reachable_bill_invariant :
    (∀ st, Reachable st → ∀ b ∈ st.bills, billInvariant b) ∧
    (∀ (f : MulterFile) (hsh : String) (i : Nat),
      extractedAbsent (initialBillData f hsh i) ∧
      (initialBillData f hsh i).processingStatus = ProcessingStatus.PROCESSING) := by
  constructor
  · intro st hr b hb
    obtain ⟨ops, hops⟩ := hr
    have hinv := storeInv_runOps ops emptyStore
      ⟨fun b0 hb0 => absurd hb0 (List.not_mem_nil b0),
        fun b0 hb0 => absurd hb0 (List.not_mem_nil b0)⟩
    rw [show ops.foldl applyOp emptyStore = runOps ops from rfl, hops] at hinv
    exact hinv.2 b hb
  · intro f hsh i
    exact ⟨⟨rfl, rfl, rfl, rfl, rfl, rfl, rfl, rfl, rfl, rfl, rfl, rfl, rfl⟩, rfl⟩

/-- C8 witness: the store reached by one concrete successful ingest run
satisfies the record invariant. -/
theorem reachable_bill_invariant_witness :
    Reachable cRunStore ∧ ∀ b ∈ cRunStore.bills, billInvariant b :=
  ⟨⟨[PipelineOp.ingest cOkEnv (some cFile)], rfl⟩,
    reachable_bill_invariant.1 cRunStore
      ⟨[PipelineOp.ingest cOkEnv (some cFile)], rfl⟩⟩

/-- When extraction succeeds and the final update succeeds, the run returns
the new identifier and applies the COMPLETED patch plus the success log. -/
theorem processAfterCreate_ok (env : RunEnv) (st : Store) (billId : Nat)
    (e : LlmExtractionResponse)
    (h4 : env.llmResult = Except.ok e) (h5 : env.updateCompletedErr = none) :
    processAfterCreate env st billId =
      { outcome := Except.ok billId
        store := createProcessingLog env.logCompletedErr
          { st with bills := (updateBillWith (completedPatch e (calculateDerivedValues e)) billId st.bills) }
          billId "processing_completed" "success"
          "Fatura processada com sucesso" } := by
  simp only [processAfterCreate, h4, h5]

/-- Zero-filling the absent optional inputs changes nothing in the derived
metrics. -/
theorem calculateDerivedValues_zeroFill (e : LlmExtractionResponse) :
    calculateDerivedValues (zeroFill e) = calculateDerivedValues e := by
  unfold calculateDerivedValues zeroFill
  cases hs : e.sceeeEnergy <;> cases hc : e.compensatedEnergy <;>
    cases hp : e.publicLightingContrib <;> simp [optJsOr, jsOr]

/-- Zero-filling the absent optional inputs changes nothing in the stored
COMPLETED record either. -/
theorem completedPatch_eq_zeroFill (e : LlmExtractionResponse)
    (b0 : EnergyBill) :
    completedPatch e (calculateDerivedValues e) b0 =
      completedPatch (zeroFill e) (calculateDerivedValues (zeroFill e)) b0 := by
  rw [calculateDerivedValues_zeroFill]
  unfold completedPatch zeroFill
  cases hs : e.sceeeEnergy <;> cases hc : e.compensatedEnergy <;>
    cases hp : e.publicLightingContrib <;> simp [optJsOr, jsOr]

/-- C10: on a successful ingest the stored COMPLETED record holds, for each
optional extracted field the gateway reported absent, the numeric value 0
(`some 0`) rather than an absent column; and the stored record is literally
identical to the one produced when the gateway reports those fields as
extracted zeros — absent and zero are indistinguishable in stored data. -/
theorem ingest_absent_optionals_stored_as_zero (env : RunEnv)
    (file : MulterFile) (st : Store) (e : LlmExtractionResponse)
    (hfresh : ∀ b ∈ st.bills, b.id ≠ st.nextId)
    (h1 : validateFile env.maxFileSizeEnv file = none)
    (h2 : st.bills.find? (fun b => b.fileHash == env.md5Hex file.buffer) = none)
    (h3 : env.createErr = none)
    (h4 : env.llmResult = Except.ok e)
    (h5 : env.updateCompletedErr = none) :
    ((uploadAndProcessBill env (some file) st).store.bills.filter
        (fun b => b.id == st.nextId) =
      [completedPatch e (calculateDerivedValues e)
        (initialBillData file (env.md5Hex file.buffer) st.nextId)]) ∧
    (e.sceeeEnergy = none →
      (completedPatch e (calculateDerivedValues e)
        (initialBillData file (env.md5Hex file.buffer) st.nextId)).sceeeQuantity =
          some 0 ∧
      (completedPatch e (calculateDerivedValues e)
        (initialBillData file (env.md5Hex file.buffer) st.nextId)).sceeeValue =
          some 0) ∧
    (e.compensatedEnergy = none →
      (completedPatch e (calculateDerivedValues e)
        (initialBillData file (env.md5Hex file.buffer) st.nextId)).compensatedEnergyQuantity =
          some 0 ∧
      (completedPatch e (calculateDerivedValues e)
        (initialBillData file (env.md5Hex file.buffer) st.nextId)).compensatedEnergyValue =
          some 0) ∧
    (e.publicLightingContrib = none →
      (completedPatch e (calculateDerivedValues e)
        (initialBillData file (env.md5Hex file.buffer) st.nextId)).publicLightingContrib =
          some 0) ∧
    (∀ (e2 : LlmExtractionResponse) (b0 : EnergyBill),
      completedPatch e2 (calculateDerivedValues e2) b0 =
        completedPatch (zeroFill e2) (calculateDerivedValues (zeroFill e2)) b0) := by
  refine ⟨?_, ?_, ?_, ?_, completedPatch_eq_zeroFill⟩
  · rw [upload_created_eq env file st h1 h2 h3,
      processAfterCreate_ok env _ st.nextId e h4 h5]
    rw [createProcessingLog_bills, createProcessingLog_bills]
    exact filter_id_updateBillWith
      (completedPatch e (calculateDerivedValues e)) st.nextId st.bills
      (initialBillData file (env.md5Hex file.buffer) st.nextId) hfresh rfl rfl
  · intro he
    constructor <;> simp [completedPatch, he, optJsOr]
  · intro he
    constructor <;> simp [completedPatch, he, optJsOr]
  · intro he
    simp [completedPatch, he, optJsOr]

/-- C10 witness: a concrete successful run whose extraction reports no
optional fields stores them all as the numeric value 0. -/
theorem ingest_absent_optionals_stored_as_zero_witness :
    ((uploadAndProcessBill cNoOptEnv (some cFile) emptyStore).store.bills.filter
        (fun b => b.id == emptyStore.nextId) =
      [completedPatch sampleExtractionNoOpt
        (calculateDerivedValues sampleExtractionNoOpt)
        (initialBillData cFile (cNoOptEnv.md5Hex cFile.buffer)
          emptyStore.nextId)]) ∧
    (completedPatch sampleExtractionNoOpt
      (calculateDerivedValues sampleExtractionNoOpt)
      (initialBillData cFile (cNoOptEnv.md5Hex cFile.buffer)
        emptyStore.nextId)).sceeeQuantity = some 0 ∧
    (completedPatch sampleExtractionNoOpt
      (calculateDerivedValues sampleExtractionNoOpt)
      (initialBillData cFile (cNoOptEnv.md5Hex cFile.buffer)
        emptyStore.nextId)).compensatedEnergyValue = some 0 ∧
    (completedPatch sampleExtractionNoOpt
      (calculateDerivedValues sampleExtractionNoOpt)
      (initialBillData cFile (cNoOptEnv.md5Hex cFile.buffer)
        emptyStore.nextId)).publicLightingContrib = some 0 := by
  have h := ingest_absent_optionals_stored_as_zero cNoOptEnv cFile emptyStore
    sampleExtractionNoOpt (by decide) (by decide) rfl rfl rfl rfl
  exact ⟨h.1, (h.2.1 rfl).1, (h.2.2.1 rfl).2, h.2.2.2.1 rfl⟩

/-- C3: for every extracted input, `calculateDerivedValues` returns exactly
the §4.2 formulas (absent optional inputs defaulting to zero, never
null-propagating), and on the worked example it returns
(526, 526, 461.62, 438.17). -/
theorem calculateDerivedValues_correct :
    (∀ e : LlmExtractionResponse, calculateDerivedValues e = deriveMetricsSpec e) ∧
    calculateDerivedValues sampleExtraction =
      { totalEnergyConsumption := 526
        compensatedEnergy := 526
        totalValueWithoutGD := 461.62
        gdEconomy := 438.17 } := by
  constructor
  · intro e
    simp only [calculateDerivedValues, deriveMetricsSpec, optJsOr_zero]
  · simp only [calculateDerivedValues, sampleExtraction, optJsOr, jsOr]
    norm_num

end LumiEnergy
